import Mathlib

/-!
Verification of the Daydream client (React/TypeScript single-page app).

TypeScript strings are modelled as `List Char`; machine-level JS numbers
that only ever hold small non-negative integers (offsets, lengths, HTTP
status codes) are modelled as `Nat`.  Asynchronous fetches are modelled by
splitting each operation into a "start" step (which may issue a request,
guarded exactly as in the source) and a "settle" step (which applies the
response to component state); outstanding requests are carried explicitly
in the component state so that single-flight properties are statable.
-/

set_option autoImplicit false

namespace Daydream

/-! ## Wire data model (src/client: DreamSummary, DreamListResponse,
    Dream, ConceptResponse, DreamGetResponse, DreamContinueResponse) -/

/-- `DreamSummary` from FindDreamsDropdown.tsx: `{ id, created_at, label }`. -/
structure DreamSummary where
  id : List Char
  created_at : List Char
  label : List Char
deriving DecidableEq, Repr

/-- `DreamListResponse` from FindDreamsDropdown.tsx:
    `{ dreams, has_more, total_count }`. -/
structure DreamListResponse where
  dreams : List DreamSummary
  has_more : Bool
  total_count : Nat
deriving DecidableEq, Repr

/-- `Dream` from DreamView.tsx: `{ id, created_at }`. -/
structure Dream where
  id : List Char
  created_at : List Char
deriving DecidableEq, Repr

/-- Modelled from the spec: the `ConceptResponse` type (its defining file
    `src/client/src/types/concept` is not present under src/); the spec's
    wire shape is `{ id, content, parent1_id?, parent2_id? }`. -/
structure ConceptResponse where
  id : List Char
  content : List Char
  parent1_id : Option (List Char)
  parent2_id : Option (List Char)
deriving DecidableEq, Repr

/-- `DreamGetResponse` from DreamView.tsx: `{ dream, concepts }`. -/
structure DreamGetResponse where
  dream : Dream
  concepts : List ConceptResponse
deriving DecidableEq, Repr

/-- `DreamContinueResponse` from DreamView.tsx: `{ success }`. -/
structure DreamContinueResponse where
  success : Bool
deriving DecidableEq, Repr

/-- Outcome of one `fetch` call as observed by the client code: a parsed
    body when `response.ok`, an HTTP error (status and statusText) when
    `!response.ok`, or a rejected promise (network error) carrying the
    exception message. -/
inductive HttpResult (α : Type) where
  | ok (body : α)
  | httpError (status : Nat) (statusText : List Char)
  | networkError (msg : List Char)
deriving DecidableEq, Repr

/-! ## ApiGateway (src/lib/api.ts: getApiBaseUrl, createApiUrl) -/

/-- `getApiBaseUrl` (api.ts): `import.meta.env.VITE_API_BASE_URL ||
    "http://localhost:8000"`.  The environment variable is modelled as an
    `Option (List Char)`; JS `||` also falls through on the empty string. -/
def getApiBaseUrl (env : Option (List Char)) : List Char :=
  match env with
  | none => "http://localhost:8000".data
  | some v => if v = [] then "http://localhost:8000".data else v

/-- `createApiUrl` (api.ts): strips a single leading slash from the
    endpoint, then returns `baseUrl + "/" + cleanEndpoint`. -/
def createApiUrl (env : Option (List Char)) (endpoint : List Char) : List Char :=
  let baseUrl := getApiBaseUrl env
  let cleanEndpoint := if endpoint.head? = some '/' then endpoint.tail else endpoint
  baseUrl ++ '/' :: cleanEndpoint

/-- All leading slashes removed (used to say what "the endpoint proper" is
    when counting separating slashes). -/
def stripLeadingSlashes : List Char → List Char
  | [] => []
  | c :: t => if c = '/' then stripLeadingSlashes t else c :: t

/-- All trailing slashes removed. -/
def stripTrailingSlashes (l : List Char) : List Char :=
  (stripLeadingSlashes l.reverse).reverse

/-- The spec's "exactly one slash separating base and endpoint": the result
    is the base's material, then one slash, then the endpoint's material,
    with no extra slash adjacent to the separator on either side. -/
def oneSlashJoin (base endpoint result : List Char) : Prop :=
  result = stripTrailingSlashes base ++ '/' :: stripLeadingSlashes endpoint

/-- `true` iff the string ends in `'/'`. -/
def endsWithSlash (l : List Char) : Bool :=
  l.getLast? = some '/'

/-- `true` iff the string begins with two slashes. -/
def hasDoubleLeadingSlash : List Char → Bool
  | '/' :: '/' :: _ => true
  | _ => false

instance : DecidablePred (fun l => hasDoubleLeadingSlash l = true) := by
  intro l
  infer_instance

lemma stripLeadingSlashes_of_head_ne (l : List Char) (h : l.head? ≠ some '/') :
    stripLeadingSlashes l = l := by
  cases l with
  | nil => rfl
  | cons c t =>
    simp only [List.head?_cons, ne_eq, Option.some.injEq] at h
    simp [stripLeadingSlashes, h]

lemma stripTrailingSlashes_of_not_endsWithSlash (l : List Char)
    (h : endsWithSlash l = false) : stripTrailingSlashes l = l := by
  unfold stripTrailingSlashes
  rw [stripLeadingSlashes_of_head_ne, List.reverse_reverse]
  intro hh
  rw [List.head?_reverse] at hh
  simp [endsWithSlash, hh] at h

lemma stripLeadingSlashes_eq_clean (e : List Char)
    (h : hasDoubleLeadingSlash e = false) :
    stripLeadingSlashes e = (if e.head? = some '/' then e.tail else e) := by
  cases e with
  | nil => rfl
  | cons c t =>
    by_cases hc : c = '/'
    · subst hc
      simp only [stripLeadingSlashes, if_pos rfl, List.head?_cons, if_pos rfl, List.tail_cons]
      apply stripLeadingSlashes_of_head_ne
      intro ht
      cases t with
      | nil => simp at ht
      | cons c2 t2 =>
        simp only [List.head?_cons, Option.some.injEq] at ht
        subst ht
        simp [hasDoubleLeadingSlash] at h
    · simp [stripLeadingSlashes, hc]

lemma getApiBaseUrl_ne_nil (env : Option (List Char)) : getApiBaseUrl env ≠ [] := by
  cases env with
  | none => simp [getApiBaseUrl, String.data]
  | some v =>
    by_cases hv : v = []
    · simp [getApiBaseUrl, hv, String.data]
    · simp [getApiBaseUrl, hv]

/-- C7 counterexample: `createApiUrl` does not always put exactly one slash
    between base and endpoint.  With configured base `"b/"` (trailing slash)
    and endpoint `"e"` the result is `"b//e"`; with base `"b"` and endpoint
    `"//e"` (two leading slashes, only one of which is stripped) the result
    is again `"b//e"`.  Both violate the one-separating-slash property. -/
theorem c7_counterexample :
    createApiUrl (some "b/".data) "e".data = "b//e".data ∧
    ¬ oneSlashJoin "b/".data "e".data (createApiUrl (some "b/".data) "e".data) ∧
    createApiUrl (some "b".data) "//e".data = "b//e".data ∧
    ¬ oneSlashJoin "b".data "//e".data (createApiUrl (some "b".data) "//e".data) := by
  refine ⟨by decide, ?_, by decide, ?_⟩ <;>
    · intro h
      simp only [oneSlashJoin] at h
      revert h
      decide

/-- C7 (amended): for every configuration, the resolved base URL is
    non-empty, and whenever that base does not end in a slash and the
    endpoint does not begin with a doubled slash, `createApiUrl` produces
    exactly one slash separating base and endpoint — never doubled and
    never missing. -/
theorem c7_createApiUrl_one_slash (env : Option (List Char)) (endpoint : List Char)
    (hbase : endsWithSlash (getApiBaseUrl env) = false)
    (hend : hasDoubleLeadingSlash endpoint = false) :
    getApiBaseUrl env ≠ [] ∧
    oneSlashJoin (getApiBaseUrl env) endpoint (createApiUrl env endpoint) := by
  refine ⟨getApiBaseUrl_ne_nil env, ?_⟩
  unfold oneSlashJoin createApiUrl
  rw [stripTrailingSlashes_of_not_endsWithSlash _ hbase,
    stripLeadingSlashes_eq_clean _ hend]

/-- Witness for `c7_createApiUrl_one_slash` at base
    `"http://localhost:8000"` (the fallback) and endpoints with and without
    a leading slash. -/
theorem c7_createApiUrl_one_slash_witness :
    (endsWithSlash (getApiBaseUrl none) = false ∧
      hasDoubleLeadingSlash "/v1/dream/list".data = false ∧
      getApiBaseUrl none ≠ [] ∧
      oneSlashJoin (getApiBaseUrl none) "/v1/dream/list".data
        (createApiUrl none "/v1/dream/list".data)) ∧
    (hasDoubleLeadingSlash "v1/dream/list".data = false ∧
      oneSlashJoin (getApiBaseUrl none) "v1/dream/list".data
        (createApiUrl none "v1/dream/list".data)) :=
  ⟨⟨by decide, by decide,
      c7_createApiUrl_one_slash none "/v1/dream/list".data (by decide) (by decide)⟩,
    ⟨by decide,
      (c7_createApiUrl_one_slash none "v1/dream/list".data (by decide) (by decide)).2⟩⟩

/-! ## DreamBrowser (FindDreamsDropdown.tsx) -/

/-- One dream-list request as issued by `fetchDreams(offset, reset)`:
    the URL carries `offset` and `limit` (always `ITEMS_PER_PAGE`), and the
    closure remembers whether this fetch replaces (`reset`) or appends. -/
structure ListRequest where
  offset : Nat
  limit : Nat
  reset : Bool
deriving DecidableEq, Repr

/-- `ITEMS_PER_PAGE = 20` (FindDreamsDropdown.tsx). -/
def ITEMS_PER_PAGE : Nat := 20

/-- Component state of `FindDreamsDropdown`: the `useState` hooks
    (`dreams`, `loading`, `hasMore`, `error`, `isDropdownOpen`) plus the
    explicit list of outstanding dream-list requests (in the source this is
    the set of in-flight `fetch` promises; `loading` is its flag). -/
structure BrowserState where
  dreams : List DreamSummary
  loading : Bool
  hasMore : Bool
  error : Option (List Char)
  isDropdownOpen : Bool
  pending : List ListRequest
deriving DecidableEq, Repr

/-- Initial hook values: `[]`, `false`, `true`, `null`, `false`. -/
def browserInit : BrowserState :=
  { dreams := [], loading := false, hasMore := true, error := none,
    isDropdownOpen := false, pending := [] }

/-- The synchronous prefix of `fetchDreams(offset, reset)`: the
    `if (loading) return` guard, then `setLoading(true)`, `setError(null)`
    and the dispatch of the HTTP request.  Returns the new state and the
    request actually issued (`none` when the guard rejected the call). -/
def fetchStart (s : BrowserState) (offset : Nat) (reset : Bool) :
    BrowserState × Option ListRequest :=
  if s.loading then (s, none)
  else
    ({ s with
       loading := true
       error := none
       pending := s.pending ++ [⟨offset, ITEMS_PER_PAGE, reset⟩] },
      some ⟨offset, ITEMS_PER_PAGE, reset⟩)

/-- `"Failed to fetch dreams: " + response.statusText`. -/
def fetchDreamsFailMsg (statusText : List Char) : List Char :=
  "Failed to fetch dreams: ".data ++ statusText

/-- The continuation of `fetchDreams` once its `fetch` settles: on success
    `setDreams(prev => reset ? data.dreams : [...prev, ...data.dreams])`
    and `setHasMore(data.has_more)`; on failure `setError(...)`; in all
    cases `setLoading(false)` (the `finally` block).  If no request is
    outstanding the response is stale and ignored. -/
def fetchSettle (s : BrowserState) (result : HttpResult DreamListResponse) :
    BrowserState :=
  match s.pending with
  | [] => s
  | req :: rest =>
    match result with
    | .ok data =>
      { s with
        dreams := if req.reset then data.dreams else s.dreams ++ data.dreams
        hasMore := data.has_more
        loading := false
        pending := rest }
    | .httpError _ statusText =>
      { s with
        error := some (fetchDreamsFailMsg statusText)
        loading := false
        pending := rest }
    | .networkError msg =>
      { s with error := some msg, loading := false, pending := rest }

/-- Opening the dropdown: `setIsDropdownOpen(true)` followed by the
    "load initial dreams" effect, which calls `fetchDreams(0, true)` iff
    `isDropdownOpen && dreams.length === 0`. -/
def openEvent (s : BrowserState) : BrowserState × Option ListRequest :=
  let s1 := { s with isDropdownOpen := true }
  if s1.isDropdownOpen && s1.dreams.isEmpty then fetchStart s1 0 true
  else (s1, none)

/-- The sentinel `div` carrying `loadMoreRef` is rendered iff
    `hasMore && !loading && dreams.length > 0` (FindDreamsDropdown.tsx,
    rendering of the scroll region). -/
def sentinelRendered (s : BrowserState) : Bool :=
  s.hasMore && !s.loading && decide (0 < s.dreams.length)

/-- The sentinel entering the viewport: the `IntersectionObserver` callback
    runs `fetchDreams(dreams.length)` iff
    `entry.isIntersecting && hasMore && !loading`; the sentinel can only
    intersect while it is rendered at all. -/
def sentinelEvent (s : BrowserState) : BrowserState × Option ListRequest :=
  if sentinelRendered s then
    if s.hasMore && !s.loading then fetchStart s s.dreams.length false
    else (s, none)
  else (s, none)

/-- External events driving one `FindDreamsDropdown` instance. -/
inductive BrowserEvent where
  | openB
  | closeB
  | sentinel
  | settle (result : HttpResult DreamListResponse)

/-- One step of the browser component under an event. -/
def browserStep (s : BrowserState) : BrowserEvent → BrowserState
  | .openB => (openEvent s).1
  | .closeB => { s with isDropdownOpen := false }
  | .sentinel => (sentinelEvent s).1
  | .settle result => fetchSettle s result

/-- States reachable from the initial hook state. -/
inductive BrowserReachable : BrowserState → Prop where
  | init : BrowserReachable browserInit
  | step {s : BrowserState} (e : BrowserEvent) :
      BrowserReachable s → BrowserReachable (browserStep s e)

/-- Single-flight invariant of the browser: `loading` is exactly "a request
    is outstanding", at most one request is ever outstanding, and a
    replacing (`reset`) request can only be outstanding while the
    accumulated list is empty. -/
def BrowserInv (s : BrowserState) : Prop :=
  s.loading = !s.pending.isEmpty ∧
  s.pending.length ≤ 1 ∧
  (∀ r ∈ s.pending, r.reset = true → s.dreams = [])

lemma browserInv_init : BrowserInv browserInit := by
  refine ⟨rfl, by simp [browserInit], ?_⟩
  intro r hr
  simp [browserInit] at hr

lemma fetchStart_inv (s : BrowserState) (offset : Nat) (reset : Bool)
    (hs : BrowserInv s) (hreset : reset = true → s.dreams = []) :
    BrowserInv (fetchStart s offset reset).1 := by
  obtain ⟨h1, h2, h3⟩ := hs
  unfold fetchStart
  by_cases hl : s.loading = true
  · simpa [hl] using ⟨h1, h2, h3⟩
  · have hl' : s.loading = false := by simpa using hl
    have hp : s.pending = [] := by
      cases hpe : s.pending with
      | nil => rfl
      | cons a t =>
        rw [hpe, hl'] at h1
        simp at h1
    refine ⟨by simp [hl', hp], by simp [hl', hp], ?_⟩
    intro r hr hrr
    simp only [hl', Bool.false_eq_true, if_false, hp, List.nil_append,
      List.mem_singleton] at hr ⊢
    subst hr
    exact hreset hrr

lemma browserInv_step (s : BrowserState) (e : BrowserEvent)
    (hs : BrowserInv s) : BrowserInv (browserStep s e) := by
  obtain ⟨h1, h2, h3⟩ := hs
  cases e with
  | openB =>
    show BrowserInv (openEvent s).1
    unfold openEvent
    by_cases hd : s.dreams.isEmpty
    · have hde : s.dreams = [] := by
        cases hdd : s.dreams with
        | nil => rfl
        | cons a t => rw [hdd] at hd; simp at hd
      simp only [hd, Bool.and_true, Bool.true_and]
      exact fetchStart_inv _ 0 true ⟨h1, h2, h3⟩ (fun _ => hde)
    · simp only [hd, Bool.and_false, Bool.false_and]
      exact ⟨h1, h2, h3⟩
  | closeB => exact ⟨h1, h2, h3⟩
  | sentinel =>
    show BrowserInv (sentinelEvent s).1
    unfold sentinelEvent
    by_cases hr : sentinelRendered s = true
    · simp only [hr, if_true]
      by_cases hc : (s.hasMore && !s.loading) = true
      · simp only [hc, if_true]
        exact fetchStart_inv _ _ false ⟨h1, h2, h3⟩ (by simp)
      · simp only [hc, if_false]
        exact ⟨h1, h2, h3⟩
    · simp only [hr, if_false]
      exact ⟨h1, h2, h3⟩
  | settle result =>
    show BrowserInv (fetchSettle s result)
    unfold fetchSettle
    split
    · exact ⟨h1, h2, h3⟩
    · rename_i req rest hp
      have hrest : rest = [] := by
        rw [hp] at h2
        simpa using h2
      subst hrest
      cases result with
      | ok data =>
        refine ⟨by simp, by simp, ?_⟩
        intro r hrr
        simp at hrr
      | httpError status statusText =>
        refine ⟨by simp, by simp, ?_⟩
        intro r hrr
        simp at hrr
      | networkError msg =>
        refine ⟨by simp, by simp, ?_⟩
        intro r hrr
        simp at hrr

lemma browserInv_reachable (s : BrowserState) (hs : BrowserReachable s) :
    BrowserInv s := by
  induction hs with
  | init => exact browserInv_init
  | step e _ ih => exact browserInv_step _ e ih

/-- Modelled from the spec: the backend `GET /v1/dream/list?offset=&limit=`
    endpoint (the backend source is not part of the client tree); offset-based
    pagination over the server's full ordered dream list, answering the page
    `dreams[offset : offset+limit]` with `has_more` true iff further items
    remain past the requested window. -/
def listServer (all : List DreamSummary) (offset limit : Nat) : DreamListResponse :=
  { dreams := (all.drop offset).take limit
    has_more := decide (offset + limit < all.length)
    total_count := all.length }

/-- Deliver the backend's answer for the oldest outstanding request of the
    browser (there is at most one) against a server holding `all`. -/
def respond (all : List DreamSummary) (s : BrowserState) : BrowserState :=
  match s.pending.head? with
  | some req => fetchSettle s (.ok (listServer all req.offset req.limit))
  | none => s

/-- The C1 scenario: first open of the dropdown (empty accumulated list),
    the response settling, then twice the sentinel entering the viewport
    with each fetch settling before the next trigger.  Returns the final
    state and the requests that actually reached the backend. -/
def runScenario (all : List DreamSummary) : BrowserState × List ListRequest :=
  let p1 := openEvent browserInit
  let s1 := respond all p1.1
  let p2 := sentinelEvent s1
  let s2 := respond all p2.1
  let p3 := sentinelEvent s2
  let s3 := respond all p3.1
  (s3, [p1.2, p2.2, p3.2].filterMap id)

/-- C1: against a backend holding 45 dreams with page size 20, first open
    plus two sentinel triggers (each previous fetch settled) issue exactly
    the three requests `offset = 0, 20, 40` (all with `limit = 20`), the
    final `hasMore` is `false`, and the accumulated list is exactly the
    server's list — all 45 items, server order, hence no duplicates beyond
    the server's own. -/
theorem c1_pagination_45 (all : List DreamSummary) (hlen : all.length = 45) :
    (runScenario all).2 = [⟨0, 20, true⟩, ⟨20, 20, false⟩, ⟨40, 20, false⟩] ∧
    (runScenario all).1.dreams = all ∧
    (runScenario all).1.hasMore = false ∧
    (all.Nodup → (runScenario all).1.dreams.Nodup) := by
  have e1 : openEvent browserInit =
      (⟨[], true, true, none, true, [⟨0, 20, true⟩]⟩, some ⟨0, 20, true⟩) := rfl
  have e2 : respond all (⟨[], true, true, none, true, [⟨0, 20, true⟩]⟩ : BrowserState) =
      ⟨all.take 20, false, true, none, true, []⟩ := by
    simp [respond, fetchSettle, listServer, hlen]
  have hl20 : (all.take 20).length = 20 := by
    simp [hlen]
  have e3 : sentinelEvent (⟨all.take 20, false, true, none, true, []⟩ : BrowserState) =
      (⟨all.take 20, true, true, none, true, [⟨20, 20, false⟩]⟩, some ⟨20, 20, false⟩) := by
    simp [sentinelEvent, sentinelRendered, fetchStart, ITEMS_PER_PAGE, hl20]
  have e4 : respond all
        (⟨all.take 20, true, true, none, true, [⟨20, 20, false⟩]⟩ : BrowserState) =
      ⟨all.take 20 ++ (all.drop 20).take 20, false, true, none, true, []⟩ := by
    simp [respond, fetchSettle, listServer, hlen]
  have hl40 : (all.take 20 ++ (all.drop 20).take 20).length = 40 := by
    simp [hlen]
  have e5 : sentinelEvent
        (⟨all.take 20 ++ (all.drop 20).take 20, false, true, none, true, []⟩ :
          BrowserState) =
      (⟨all.take 20 ++ (all.drop 20).take 20, true, true, none, true,
          [⟨40, 20, false⟩]⟩, some ⟨40, 20, false⟩) := by
    simp [sentinelEvent, sentinelRendered, fetchStart, ITEMS_PER_PAGE, hl40]
  have e6 : respond all
        (⟨all.take 20 ++ (all.drop 20).take 20, true, true, none, true,
          [⟨40, 20, false⟩]⟩ : BrowserState) =
      ⟨(all.take 20 ++ (all.drop 20).take 20) ++ (all.drop 40).take 20,
        false, false, none, true, []⟩ := by
    simp [respond, fetchSettle, listServer, hlen]
  have hrun : runScenario all =
      (⟨(all.take 20 ++ (all.drop 20).take 20) ++ (all.drop 40).take 20,
          false, false, none, true, []⟩,
        [⟨0, 20, true⟩, ⟨20, 20, false⟩, ⟨40, 20, false⟩]) := by
    unfold runScenario
    rw [e1]
    simp only
    rw [e2, e3]
    simp only
    rw [e4, e5]
    simp only
    rw [e6]
    rfl
  have hall : (all.take 20 ++ (all.drop 20).take 20) ++ (all.drop 40).take 20 = all := by
    rw [← List.take_add]
    have h5 : (all.drop 40).take 20 = all.drop 40 :=
      List.take_of_length_le (by simp [hlen])
    rw [h5]
    exact List.take_append_drop 40 all
  rw [hrun]
  refine ⟨rfl, hall, rfl, ?_⟩
  intro hnd
  rw [hall]
  exact hnd

/-- Witness for `c1_pagination_45`: 45 concrete dream summaries labelled by
    their decimal index. -/
def sample45 : List DreamSummary :=
  (List.range 45).map fun i => ⟨(toString i).data, [], (toString i).data⟩

/-- Witness: the C1 scenario run on the concrete 45-item server. -/
theorem c1_pagination_45_witness :
    sample45.length = 45 ∧
    ((runScenario sample45).2 =
        [⟨0, 20, true⟩, ⟨20, 20, false⟩, ⟨40, 20, false⟩] ∧
      (runScenario sample45).1.dreams = sample45 ∧
      (runScenario sample45).1.hasMore = false ∧
      (sample45.Nodup → (runScenario sample45).1.dreams.Nodup)) :=
  ⟨by decide, c1_pagination_45 sample45 (by decide)⟩

lemma fetchStart_dreams (s : BrowserState) (offset : Nat) (reset : Bool) :
    (fetchStart s offset reset).1.dreams = s.dreams := by
  unfold fetchStart
  by_cases hl : s.loading = true <;> simp [hl]

lemma sentinelEvent_dreams (s : BrowserState) :
    (sentinelEvent s).1.dreams = s.dreams := by
  unfold sentinelEvent
  by_cases hr : sentinelRendered s = true
  · by_cases hc : (s.hasMore && !s.loading) = true
    · simp [hr, hc, fetchStart_dreams]
    · simp [hr, hc]
  · simp [hr]

lemma openEvent_dreams (s : BrowserState) :
    (openEvent s).1.dreams = s.dreams := by
  unfold openEvent
  dsimp only
  split
  · exact fetchStart_dreams _ 0 true
  · rfl

/-- C6: (i) opening the dropdown while the accumulated list is non-empty
    only flips the open flag and issues no fetch (in particular none at
    offset 0); (ii) the first open — empty accumulated list, no fetch in
    flight — issues exactly the initial page request `offset = 0`;
    (iii) along every event from every reachable state, the accumulated
    list only ever grows by appending (it persists for the component's
    lifetime, never shrinking and never being replaced once non-empty). -/
theorem c6_reopen_idempotent :
    (∀ s : BrowserState, s.dreams ≠ [] →
      openEvent s = ({ s with isDropdownOpen := true }, none)) ∧
    (∀ s : BrowserState, s.dreams = [] → s.loading = false →
      (openEvent s).2 = some ⟨0, ITEMS_PER_PAGE, true⟩) ∧
    (∀ (s : BrowserState) (e : BrowserEvent), BrowserReachable s →
      ∃ t, (browserStep s e).dreams = s.dreams ++ t) := by
  refine ⟨?_, ?_, ?_⟩
  · intro s hd
    unfold openEvent
    have hde : ({ s with isDropdownOpen := true } : BrowserState).dreams.isEmpty = false := by
      show s.dreams.isEmpty = false
      simp [hd]
    simp [hde]
  · intro s hd hl
    unfold openEvent fetchStart
    simp [hd, hl]
  · intro s e hreach
    obtain ⟨h1, h2, h3⟩ := browserInv_reachable s hreach
    cases e with
    | openB =>
      exact ⟨[], by rw [List.append_nil]; exact openEvent_dreams s⟩
    | closeB =>
      exact ⟨[], by show s.dreams = s.dreams ++ []; rw [List.append_nil]⟩
    | sentinel =>
      exact ⟨[], by rw [List.append_nil]; exact sentinelEvent_dreams s⟩
    | settle result =>
      show ∃ t, (fetchSettle s result).dreams = s.dreams ++ t
      unfold fetchSettle
      split
      · exact ⟨[], by rw [List.append_nil]⟩
      · rename_i req rest hp
        cases result with
        | ok data =>
          by_cases hres : req.reset = true
          · have hde : s.dreams = [] := h3 req (by rw [hp]; exact List.mem_cons_self req rest) hres
            exact ⟨data.dreams, by simp [hres, hde]⟩
          · exact ⟨data.dreams, by simp [hres]⟩
        | httpError status statusText => exact ⟨[], by rw [List.append_nil]⟩
        | networkError msg => exact ⟨[], by rw [List.append_nil]⟩

/-- Witness for `c6_reopen_idempotent`: re-opening a browser that already
    accumulated one dream issues no request; the first open from the
    initial state issues the `offset = 0` request; and a settle step from
    the reachable initial state only appends. -/
theorem c6_reopen_idempotent_witness :
    (let s : BrowserState :=
      ⟨[⟨"d1".data, [], []⟩], false, true, none, false, []⟩
     s.dreams ≠ [] ∧ openEvent s = ({ s with isDropdownOpen := true }, none)) ∧
    (browserInit.dreams = [] ∧ browserInit.loading = false ∧
      (openEvent browserInit).2 = some ⟨0, ITEMS_PER_PAGE, true⟩) ∧
    (∃ t, (browserStep browserInit .openB).dreams = browserInit.dreams ++ t) :=
  ⟨⟨by decide, c6_reopen_idempotent.1 _ (by decide)⟩,
    ⟨rfl, rfl, c6_reopen_idempotent.2.1 browserInit rfl rfl⟩,
    c6_reopen_idempotent.2.2 browserInit .openB BrowserReachable.init⟩

/-! ## DreamSession (DreamView.tsx) -/

/-- Component state of `DreamView`: the `useParams` dream id and the
    `useState` hooks (`isLoading`, `isContinuing`, `dream`, `concepts`,
    `error`, `copied`), plus the explicit lists of outstanding load and
    continue requests (in the source these are in-flight `fetch` promises;
    `isContinuing` is the continue-flight flag). -/
structure SessionState where
  dreamId : Option (List Char)
  isLoading : Bool
  isContinuing : Bool
  dream : Option Dream
  concepts : List ConceptResponse
  error : Option (List Char)
  copied : Bool
  pendingLoad : List (List Char)
  pendingContinue : List (List Char)
deriving DecidableEq, Repr

/-- Initial hook values for a mounted `DreamView` at route id `id`:
    `isLoading` starts `true`, everything else empty/false. -/
def sessionInit (id : Option (List Char)) : SessionState :=
  { dreamId := id, isLoading := true, isContinuing := false, dream := none,
    concepts := [], error := none, copied := false, pendingLoad := [],
    pendingContinue := [] }

/-- `"No dream ID provided"`. -/
def noIdLoadMsg : List Char := "No dream ID provided".data

/-- `"Dream not found"` — the distinct NotFound message. -/
def notFoundMsg : List Char := "Dream not found".data

/-- `"Failed to load dream: " + response.statusText` — the generic load
    failure message. -/
def loadFailMsg (statusText : List Char) : List Char :=
  "Failed to load dream: ".data ++ statusText

/-- `"No dream ID available"`. -/
def noIdContinueMsg : List Char := "No dream ID available".data

/-- `"Failed to continue dream: " + response.statusText`. -/
def continueFailMsg (statusText : List Char) : List Char :=
  "Failed to continue dream: ".data ++ statusText

/-- `"Dream continuation was not successful"`. -/
def continueNotSuccessfulMsg : List Char :=
  "Dream continuation was not successful".data

/-- The synchronous prefix of `loadDream()`: bail out with an error when no
    dream id is available, otherwise `setIsLoading(true)`, `setError(null)`
    and dispatch `GET v1/dream/{id}`.  Returns the new state and the id a
    request was issued for, if any. -/
def loadStart (s : SessionState) : SessionState × Option (List Char) :=
  match s.dreamId with
  | none =>
    ({ s with error := some noIdLoadMsg, isLoading := false }, none)
  | some id =>
    ({ s with
       isLoading := true
       error := none
       pendingLoad := s.pendingLoad ++ [id] },
      some id)

/-- The continuation of `loadDream()` once its `fetch` settles: a 404
    raises `"Dream not found"`, any other non-ok status the generic load
    failure, a network error its own message; on success `setDream` and
    `setConcepts`; the `finally` block clears `isLoading` in every case.
    A response with no outstanding request is stale and ignored. -/
def loadSettle (s : SessionState) (result : HttpResult DreamGetResponse) :
    SessionState :=
  match s.pendingLoad with
  | [] => s
  | _ :: rest =>
    match result with
    | .ok data =>
      { s with
        dream := some data.dream
        concepts := data.concepts
        isLoading := false
        pendingLoad := rest }
    | .httpError status statusText =>
      if status = 404 then
        { s with error := some notFoundMsg, isLoading := false, pendingLoad := rest }
      else
        { s with
          error := some (loadFailMsg statusText)
          isLoading := false
          pendingLoad := rest }
    | .networkError msg =>
      { s with error := some msg, isLoading := false, pendingLoad := rest }

/-- One complete `loadDream()` call: start, then the settling of the fetch
    it issued. -/
def loadCall (s : SessionState) (result : HttpResult DreamGetResponse) :
    SessionState :=
  loadSettle (loadStart s).1 result

/-- The synchronous prefix of `continueDream()`: bail out with an error
    when no dream id is available, otherwise `setIsContinuing(true)`,
    `setError(null)` and dispatch `POST v1/dream/{id}/continue`. -/
def continueStart (s : SessionState) : SessionState × Option (List Char) :=
  match s.dreamId with
  | none => ({ s with error := some noIdContinueMsg }, none)
  | some id =>
    ({ s with
       isContinuing := true
       error := none
       pendingContinue := s.pendingContinue ++ [id] },
      some id)

/-- The continuation of `continueDream()` once its `fetch` settles: a
    non-ok status or network error surfaces an error; an ok response with
    `success: false` surfaces `"Dream continuation was not successful"`;
    an ok response with `success: true` awaits a full `loadDream()` (whose
    own fetch settles with `reload`); the `finally` block then clears
    `isContinuing`.  A response with no outstanding request is stale and
    ignored. -/
def continueSettle (s : SessionState) (result : HttpResult DreamContinueResponse)
    (reload : HttpResult DreamGetResponse) : SessionState :=
  match s.pendingContinue with
  | [] => s
  | _ :: rest =>
    let s0 := { s with pendingContinue := rest }
    match result with
    | .ok data =>
      if data.success then
        { loadCall s0 reload with isContinuing := false }
      else
        { s0 with error := some continueNotSuccessfulMsg, isContinuing := false }
    | .httpError _ statusText =>
      { s0 with error := some (continueFailMsg statusText), isContinuing := false }
    | .networkError msg =>
      { s0 with error := some msg, isContinuing := false }

/-- What `DreamView` renders, in the source's guard order: the loading
    spinner while `isLoading`; else the error card (which always carries
    the "Try Again" retry button) when `error` is set; else a bare
    "Dream not found" fallback when no dream is loaded; else the dream
    view, whose continue button exists iff `concepts.length >= 2` and is
    disabled iff `isContinuing`. -/
inductive SessionView where
  | loadingView
  | errorCard (msg : List Char) (hasRetry : Bool)
  | missingDream
  | dreamView (showContinue : Bool) (continueDisabled : Bool)
deriving DecidableEq, Repr

/-- The render function of `DreamView`. -/
def renderSession (s : SessionState) : SessionView :=
  if s.isLoading then .loadingView
  else
    match s.error with
    | some msg => .errorCard msg true
    | none =>
      match s.dream with
      | none => .missingDream
      | some _ => .dreamView (decide (2 ≤ s.concepts.length)) s.isContinuing

/-- A user click on the continue button: the handler `continueDream` only
    runs if the button is rendered at all (`concepts.length >= 2`, inside
    the loaded dream view) and not `disabled` (`isContinuing`).  Returns
    the new state and whether a network call was issued. -/
def clickContinue (s : SessionState) : SessionState × Option (List Char) :=
  if renderSession s = .dreamView true false then continueStart s else (s, none)

/-- External events driving one `DreamView` instance: a mount or route
    change (which re-runs the `dreamId` effect), a click on the error
    card's "Try Again" button (only rendered in the error view), a click
    on the continue button, and the settling of an outstanding load or
    continue fetch. -/
inductive SessionEvent where
  | routeChange (id : Option (List Char))
  | tryAgain
  | clickCont
  | loadResp (result : HttpResult DreamGetResponse)
  | contResp (result : HttpResult DreamContinueResponse)
      (reload : HttpResult DreamGetResponse)

/-- One step of the session component under an event. -/
def sessionStep (s : SessionState) : SessionEvent → SessionState
  | .routeChange id =>
    let s1 := { s with dreamId := id }
    if id.isSome then (loadStart s1).1 else s1
  | .tryAgain =>
    match renderSession s with
    | .errorCard _ _ => (loadStart s).1
    | _ => s
  | .clickCont => (clickContinue s).1
  | .loadResp result => loadSettle s result
  | .contResp result reload => continueSettle s result reload

/-- States reachable from a freshly mounted `DreamView`. -/
inductive SessionReachable : SessionState → Prop where
  | init (id : Option (List Char)) : SessionReachable (sessionInit id)
  | step {s : SessionState} (e : SessionEvent) :
      SessionReachable s → SessionReachable (sessionStep s e)

/-- Single-flight invariant of the session's continuation: `isContinuing`
    is exactly "a continue request is outstanding", and at most one is
    ever outstanding. -/
def SessionInv (s : SessionState) : Prop :=
  s.isContinuing = !s.pendingContinue.isEmpty ∧ s.pendingContinue.length ≤ 1

lemma loadStart_contFrame (s : SessionState) :
    (loadStart s).1.pendingContinue = s.pendingContinue ∧
    (loadStart s).1.isContinuing = s.isContinuing := by
  cases h : s.dreamId <;> simp [loadStart, h]

lemma loadSettle_contFrame (s : SessionState) (result : HttpResult DreamGetResponse) :
    (loadSettle s result).pendingContinue = s.pendingContinue ∧
    (loadSettle s result).isContinuing = s.isContinuing := by
  unfold loadSettle
  split
  · exact ⟨rfl, rfl⟩
  · cases result with
    | ok data => exact ⟨rfl, rfl⟩
    | httpError status statusText =>
      by_cases h : status = 404 <;> simp [h]
    | networkError msg => exact ⟨rfl, rfl⟩

lemma loadCall_contFrame (s : SessionState) (result : HttpResult DreamGetResponse) :
    (loadCall s result).pendingContinue = s.pendingContinue ∧
    (loadCall s result).isContinuing = s.isContinuing := by
  unfold loadCall
  refine ⟨?_, ?_⟩
  · rw [(loadSettle_contFrame _ _).1, (loadStart_contFrame s).1]
  · rw [(loadSettle_contFrame _ _).2, (loadStart_contFrame s).2]

lemma sessionInv_init (id : Option (List Char)) : SessionInv (sessionInit id) := by
  exact ⟨rfl, by simp [sessionInit]⟩

lemma sessionInv_step (s : SessionState) (e : SessionEvent)
    (hs : SessionInv s) : SessionInv (sessionStep s e) := by
  obtain ⟨h1, h2⟩ := hs
  cases e with
  | routeChange id =>
    show SessionInv (let s1 := { s with dreamId := id };
      if id.isSome then (loadStart s1).1 else s1)
    dsimp only
    split
    · constructor
      · rw [(loadStart_contFrame _).2, (loadStart_contFrame _).1]
        exact h1
      · rw [(loadStart_contFrame _).1]
        exact h2
    · exact ⟨h1, h2⟩
  | tryAgain =>
    show SessionInv (match renderSession s with
      | .errorCard _ _ => (loadStart s).1
      | _ => s)
    split
    · constructor
      · rw [(loadStart_contFrame _).2, (loadStart_contFrame _).1]
        exact h1
      · rw [(loadStart_contFrame _).1]
        exact h2
    · exact ⟨h1, h2⟩
  | clickCont =>
    show SessionInv (clickContinue s).1
    unfold clickContinue
    split
    · unfold continueStart
      cases hid : s.dreamId with
      | none => exact ⟨h1, h2⟩
      | some id =>
        have hc : s.isContinuing = false := by
          rename_i hrend
          unfold renderSession at hrend
          by_cases hl : s.isLoading = true
          · simp [hl] at hrend
          · cases he : s.error with
            | some m => simp [hl, he] at hrend
            | none =>
              cases hd : s.dream with
              | none => simp [hl, he, hd] at hrend
              | some d =>
                simp only [hl, Bool.false_eq_true, if_false, he, hd] at hrend
                injection hrend with ha hb
        have hp : s.pendingContinue = [] := by
          rw [hc] at h1
          cases hpe : s.pendingContinue with
          | nil => rfl
          | cons a t =>
            rw [hpe] at h1
            simp at h1
        exact ⟨by simp [hp], by simp [hp]⟩
    · exact ⟨h1, h2⟩
  | loadResp result =>
    show SessionInv (loadSettle s result)
    constructor
    · rw [(loadSettle_contFrame _ _).2, (loadSettle_contFrame _ _).1]
      exact h1
    · rw [(loadSettle_contFrame _ _).1]
      exact h2
  | contResp result reload =>
    show SessionInv (continueSettle s result reload)
    unfold continueSettle
    split
    · exact ⟨h1, h2⟩
    · rename_i x rest hp
      have hrest : rest = [] := by
        rw [hp] at h2
        simpa using h2
      subst hrest
      cases result with
      | ok data =>
        dsimp only
        by_cases hsucc : data.success = true
        · simp only [hsucc, if_true]
          constructor
          · show false = !List.isEmpty _
            rw [(loadCall_contFrame _ _).1]
            rfl
          · rw [(loadCall_contFrame _ _).1]
            simp
        · rw [if_neg hsucc]
          exact ⟨rfl, by simp⟩
      | httpError status statusText => exact ⟨rfl, by simp⟩
      | networkError msg => exact ⟨rfl, by simp⟩

lemma sessionInv_reachable (s : SessionState) (hs : SessionReachable s) :
    SessionInv s := by
  induction hs with
  | init id => exact sessionInv_init id
  | step e _ ih => exact sessionInv_step _ e ih

/-- `true` iff a continue response is a failure in the sense of
    `continueDream`'s catch: non-ok status, network error, or an ok
    response whose body has `success: false`. -/
def continueFailed : HttpResult DreamContinueResponse → Bool
  | .ok data => !data.success
  | .httpError _ _ => true
  | .networkError _ => true

/-- `true` iff a load response takes `loadDream`'s catch path. -/
def loadFailed : HttpResult DreamGetResponse → Bool
  | .ok _ => false
  | .httpError _ _ => true
  | .networkError _ => true

lemma renderSession_ne_button_of_lt2 (s : SessionState)
    (h : s.concepts.length < 2) :
    renderSession s ≠ .dreamView true false := by
  unfold renderSession
  by_cases hl : s.isLoading = true
  · simp [hl]
  · cases he : s.error with
    | some m => simp [hl, he]
    | none =>
      cases hd : s.dream with
      | none => simp [hl, he, hd]
      | some d =>
        simp only [hl, Bool.false_eq_true, if_false, he, hd]
        intro hq
        injection hq with ha hb
        rw [decide_eq_true_iff] at ha
        omega

/-- C2: for every session state holding a loaded dream with fewer than two
    concepts, a click on "continue" is a no-op: the button is not rendered
    (`concepts.length >= 2` guards it), so no continuation request can be
    initiated client-side. -/
theorem c2_continue_unavailable_lt2 (s : SessionState) (d : Dream)
    (_hd : s.dream = some d) (h : s.concepts.length < 2) :
    clickContinue s = (s, none) := by
  unfold clickContinue
  rw [if_neg (renderSession_ne_button_of_lt2 s h)]

/-- Witness for `c2_continue_unavailable_lt2`: a loaded dream with one
    concept. -/
theorem c2_continue_unavailable_lt2_witness :
    (let s : SessionState :=
      { dreamId := some "d1".data, isLoading := false, isContinuing := false,
        dream := some ⟨"d1".data, "t".data⟩,
        concepts := [⟨"c1".data, "x".data, none, none⟩], error := none,
        copied := false, pendingLoad := [], pendingContinue := [] }
     s.dream = some ⟨"d1".data, "t".data⟩ ∧ s.concepts.length < 2 ∧
       clickContinue s = (s, none)) :=
  ⟨rfl, by decide,
    c2_continue_unavailable_lt2 _ ⟨"d1".data, "t".data⟩ rfl (by decide)⟩

lemma pendingContinue_cons_shape (l : List (List Char)) (id : List Char) :
    ∃ a t, l ++ [id] = a :: t := by
  cases l with
  | nil => exact ⟨id, [], rfl⟩
  | cons x xs => exact ⟨x, xs ++ [id], rfl⟩

/-- C3: whenever a `continueDream()` call fails — network error, non-ok
    HTTP status, or an ok response with `success: false` — the concept
    sequence and the loaded dream after settling are exactly their pre-call
    values, and an error is surfaced. -/
theorem c3_failed_continue_frame (s : SessionState) (id : List Char)
    (result : HttpResult DreamContinueResponse)
    (reload : HttpResult DreamGetResponse)
    (hid : s.dreamId = some id) (hfail : continueFailed result = true) :
    (continueSettle (continueStart s).1 result reload).concepts = s.concepts ∧
    (continueSettle (continueStart s).1 result reload).dream = s.dream ∧
    (continueSettle (continueStart s).1 result reload).error.isSome = true := by
  obtain ⟨a, t, hat⟩ := pendingContinue_cons_shape s.pendingContinue id
  unfold continueStart
  rw [hid]
  dsimp only
  unfold continueSettle
  dsimp only
  rw [hat]
  dsimp only
  cases result with
  | ok data =>
    have hfs : data.success = false := by
      simpa [continueFailed] using hfail
    dsimp only
    simp only [hfs, Bool.false_eq_true, if_false]
    exact ⟨trivial, trivial, rfl⟩
  | httpError status statusText => exact ⟨rfl, rfl, rfl⟩
  | networkError msg => exact ⟨rfl, rfl, rfl⟩

/-- Witness for `c3_failed_continue_frame`: a loaded two-concept dream and
    a continue call answered with HTTP 500. -/
theorem c3_failed_continue_frame_witness :
    (let s : SessionState :=
      { dreamId := some "d1".data, isLoading := false, isContinuing := false,
        dream := some ⟨"d1".data, "t".data⟩,
        concepts := [⟨"c1".data, "x".data, none, none⟩,
          ⟨"c2".data, "y".data, none, none⟩],
        error := none, copied := false, pendingLoad := [], pendingContinue := [] }
     s.dreamId = some "d1".data ∧
       continueFailed (.httpError 500 "Internal Server Error".data) = true ∧
       ((continueSettle (continueStart s).1
            (.httpError 500 "Internal Server Error".data) (.ok ⟨⟨"d1".data, "t".data⟩, []⟩)).concepts
          = s.concepts ∧
        (continueSettle (continueStart s).1
            (.httpError 500 "Internal Server Error".data) (.ok ⟨⟨"d1".data, "t".data⟩, []⟩)).dream
          = s.dream ∧
        (continueSettle (continueStart s).1
            (.httpError 500 "Internal Server Error".data) (.ok ⟨⟨"d1".data, "t".data⟩, []⟩)).error.isSome
          = true)) :=
  ⟨rfl, rfl, c3_failed_continue_frame _ "d1".data _ _ rfl rfl⟩

/-- C10: an HTTP-success continue response whose body carries
    `success: false` is treated as a failure: the surfaced error is
    `"Dream continuation was not successful"`, no reload of the dream is
    issued (the outstanding-load list is untouched), and the loaded dream
    and concepts are unchanged. -/
theorem c10_unsuccessful_body (s : SessionState) (id : List Char)
    (reload : HttpResult DreamGetResponse) (hid : s.dreamId = some id) :
    (continueSettle (continueStart s).1 (.ok ⟨false⟩) reload).error
        = some continueNotSuccessfulMsg ∧
    (continueSettle (continueStart s).1 (.ok ⟨false⟩) reload).concepts = s.concepts ∧
    (continueSettle (continueStart s).1 (.ok ⟨false⟩) reload).dream = s.dream ∧
    (continueSettle (continueStart s).1 (.ok ⟨false⟩) reload).pendingLoad
        = s.pendingLoad := by
  obtain ⟨a, t, hat⟩ := pendingContinue_cons_shape s.pendingContinue id
  unfold continueStart
  rw [hid]
  dsimp only
  unfold continueSettle
  dsimp only
  rw [hat]
  dsimp only
  exact ⟨rfl, rfl, rfl, rfl⟩

/-- Witness for `c10_unsuccessful_body`. -/
theorem c10_unsuccessful_body_witness :
    (let s : SessionState :=
      { dreamId := some "d1".data, isLoading := false, isContinuing := false,
        dream := some ⟨"d1".data, "t".data⟩,
        concepts := [⟨"c1".data, "x".data, none, none⟩,
          ⟨"c2".data, "y".data, none, none⟩],
        error := none, copied := false, pendingLoad := [], pendingContinue := [] }
     s.dreamId = some "d1".data ∧
       ((continueSettle (continueStart s).1 (.ok ⟨false⟩)
            (.ok ⟨⟨"d1".data, "t".data⟩, []⟩)).error = some continueNotSuccessfulMsg ∧
        (continueSettle (continueStart s).1 (.ok ⟨false⟩)
            (.ok ⟨⟨"d1".data, "t".data⟩, []⟩)).concepts = s.concepts ∧
        (continueSettle (continueStart s).1 (.ok ⟨false⟩)
            (.ok ⟨⟨"d1".data, "t".data⟩, []⟩)).dream = s.dream ∧
        (continueSettle (continueStart s).1 (.ok ⟨false⟩)
            (.ok ⟨⟨"d1".data, "t".data⟩, []⟩)).pendingLoad = s.pendingLoad)) :=
  ⟨rfl, c10_unsuccessful_body _ "d1".data _ rfl⟩

lemma loadFailMsg_ne_notFoundMsg (txt : List Char) :
    loadFailMsg txt ≠ notFoundMsg := by
  intro h
  have hF : (loadFailMsg txt).head? = some 'F' := rfl
  have hD : notFoundMsg.head? = some 'D' := rfl
  rw [h, hD] at hF
  simp at hF

lemma pendingLoad_cons_shape (l : List (List Char)) (id : List Char) :
    ∃ a t, l ++ [id] = a :: t := by
  cases l with
  | nil => exact ⟨id, [], rfl⟩
  | cons x xs => exact ⟨x, xs ++ [id], rfl⟩

/-- C5: a `loadDream()` call answered with HTTP 404 surfaces the distinct
    `"Dream not found"` message — never the generic
    `"Failed to load dream: ..."` transport-failure message; any other
    non-ok status surfaces the generic message (provably different from
    the NotFound one), and a network error surfaces its own message; in
    every failure case the rendered view is the error card with its
    "Try Again" retry affordance. -/
theorem c5_notfound_vs_transport (s : SessionState) (id : List Char)
    (hid : s.dreamId = some id) :
    (∀ txt, (loadCall s (.httpError 404 txt)).error = some notFoundMsg ∧
      renderSession (loadCall s (.httpError 404 txt)) = .errorCard notFoundMsg true) ∧
    (∀ status txt, status ≠ 404 →
      (loadCall s (.httpError status txt)).error = some (loadFailMsg txt) ∧
      loadFailMsg txt ≠ notFoundMsg ∧
      renderSession (loadCall s (.httpError status txt))
        = .errorCard (loadFailMsg txt) true) ∧
    (∀ msg, (loadCall s (.networkError msg)).error = some msg ∧
      renderSession (loadCall s (.networkError msg)) = .errorCard msg true) := by
  obtain ⟨a, t, hat⟩ := pendingLoad_cons_shape s.pendingLoad id
  have hstart : (loadStart s).1 =
      { s with isLoading := true, error := none, pendingLoad := s.pendingLoad ++ [id] } := by
    unfold loadStart
    rw [hid]
  refine ⟨?_, ?_, ?_⟩
  · intro txt
    unfold loadCall
    rw [hstart]
    unfold loadSettle
    dsimp only
    rw [hat]
    dsimp only
    rw [if_pos rfl]
    exact ⟨rfl, rfl⟩
  · intro status txt hstatus
    unfold loadCall
    rw [hstart]
    unfold loadSettle
    dsimp only
    rw [hat]
    dsimp only
    rw [if_neg hstatus]
    exact ⟨rfl, loadFailMsg_ne_notFoundMsg txt, rfl⟩
  · intro msg
    unfold loadCall
    rw [hstart]
    unfold loadSettle
    dsimp only
    rw [hat]
    dsimp only
    exact ⟨rfl, rfl⟩

/-- Witness for `c5_notfound_vs_transport`: a fresh session for dream
    `"d1"`, answered with 404, 500 and a network error. -/
theorem c5_notfound_vs_transport_witness :
    ((sessionInit (some "d1".data)).dreamId = some "d1".data ∧
      (loadCall (sessionInit (some "d1".data))
          (.httpError 404 "Not Found".data)).error = some notFoundMsg ∧
      (loadCall (sessionInit (some "d1".data))
          (.httpError 500 "Internal Server Error".data)).error
        = some (loadFailMsg "Internal Server Error".data) ∧
      loadFailMsg "Internal Server Error".data ≠ notFoundMsg ∧
      renderSession (loadCall (sessionInit (some "d1".data))
          (.networkError "Failed to fetch".data))
        = .errorCard "Failed to fetch".data true) :=
  ⟨rfl,
    (c5_notfound_vs_transport (sessionInit (some "d1".data)) "d1".data rfl).1
      "Not Found".data |>.1,
    ((c5_notfound_vs_transport (sessionInit (some "d1".data)) "d1".data rfl).2.1
      500 "Internal Server Error".data (by decide)).1,
    ((c5_notfound_vs_transport (sessionInit (some "d1".data)) "d1".data rfl).2.1
      500 "Internal Server Error".data (by decide)).2.1,
    ((c5_notfound_vs_transport (sessionInit (some "d1".data)) "d1".data rfl).2.2
      "Failed to fetch".data).2⟩

/-- C8 counterexample: "after the call settles exactly one of the success
    state and the error state is populated — never both" fails.  From a
    state whose dream is already loaded, a `loadDream()` call that fails
    leaves the old dream populated AND sets the error: both are populated
    after settle. -/
def c8Pre : SessionState :=
  { dreamId := some "d1".data, isLoading := false, isContinuing := false,
    dream := some ⟨"d1".data, "t".data⟩, concepts := [], error := none,
    copied := false, pendingLoad := [], pendingContinue := [] }

/-- C8 counterexample theorem: both the dream and the error are populated
    after a failed reload. -/
theorem c8_counterexample :
    (loadCall c8Pre (.networkError "network down".data)).dream.isSome = true ∧
    (loadCall c8Pre (.networkError "network down".data)).error.isSome = true := by
  decide

/-- C8 (amended): for every `loadDream()` call with an id available, the
    loading flag is `true` from the start of the call and `false` once it
    settles; on success the dream is populated and the error is empty; on
    failure the error is populated; and when the call began with no dream
    loaded, failure leaves the dream unpopulated — so "exactly one of
    success/error" holds for every initial load, while a failed reload
    keeps the previous dream alongside the error (the error view takes
    display precedence). -/
theorem c8_loading_flag_and_settle (s : SessionState) (id : List Char)
    (hid : s.dreamId = some id) :
    (loadStart s).1.isLoading = true ∧
    (∀ result, (loadCall s result).isLoading = false) ∧
    (∀ data, (loadCall s (.ok data)).dream = some data.dream ∧
      (loadCall s (.ok data)).error = none) ∧
    (∀ result, loadFailed result = true → (loadCall s result).error.isSome = true) ∧
    (s.dream = none → ∀ result, loadFailed result = true →
      (loadCall s result).dream = none) := by
  obtain ⟨a, t, hat⟩ := pendingLoad_cons_shape s.pendingLoad id
  have hstart : (loadStart s).1 =
      { s with isLoading := true, error := none, pendingLoad := s.pendingLoad ++ [id] } := by
    unfold loadStart
    rw [hid]
  have hsettle : ∀ result, loadCall s result =
      loadSettle
        { s with
          isLoading := true
          error := none
          pendingLoad := s.pendingLoad ++ [id] } result := by
    intro result
    unfold loadCall
    rw [hstart]
  refine ⟨by rw [hstart], ?_, ?_, ?_, ?_⟩
  · intro result
    rw [hsettle]
    unfold loadSettle
    dsimp only
    rw [hat]
    dsimp only
    cases result with
    | ok data => rfl
    | httpError status statusText =>
      dsimp only
      by_cases h404 : status = 404
      · rw [if_pos h404]
      · rw [if_neg h404]
    | networkError msg => rfl
  · intro data
    rw [hsettle]
    unfold loadSettle
    dsimp only
    rw [hat]
    dsimp only
    exact ⟨rfl, rfl⟩
  · intro result hfail
    rw [hsettle]
    unfold loadSettle
    dsimp only
    rw [hat]
    dsimp only
    cases result with
    | ok data => simp [loadFailed] at hfail
    | httpError status statusText =>
      dsimp only
      by_cases h404 : status = 404
      · rw [if_pos h404]
        rfl
      · rw [if_neg h404]
        rfl
    | networkError msg => rfl
  · intro hdream result hfail
    rw [hsettle]
    unfold loadSettle
    dsimp only
    rw [hat]
    dsimp only
    cases result with
    | ok data => simp [loadFailed] at hfail
    | httpError status statusText =>
      dsimp only
      by_cases h404 : status = 404
      · rw [if_pos h404]
        exact hdream
      · rw [if_neg h404]
        exact hdream
    | networkError msg => exact hdream

/-- Witness for `c8_loading_flag_and_settle`: the fresh session for
    `"d1"` answered with success and with a 500 failure. -/
theorem c8_loading_flag_and_settle_witness :
    ((sessionInit (some "d1".data)).dreamId = some "d1".data ∧
      (loadStart (sessionInit (some "d1".data))).1.isLoading = true ∧
      (loadCall (sessionInit (some "d1".data))
          (.ok ⟨⟨"d1".data, "t".data⟩, []⟩)).isLoading = false ∧
      (loadCall (sessionInit (some "d1".data))
          (.ok ⟨⟨"d1".data, "t".data⟩, []⟩)).dream = some ⟨"d1".data, "t".data⟩ ∧
      (loadCall (sessionInit (some "d1".data))
          (.ok ⟨⟨"d1".data, "t".data⟩, []⟩)).error = none ∧
      ((sessionInit (some "d1".data)).dream = none →
        (loadCall (sessionInit (some "d1".data))
            (.httpError 500 "boom".data)).dream = none)) :=
  ⟨rfl,
    (c8_loading_flag_and_settle (sessionInit (some "d1".data)) "d1".data rfl).1,
    (c8_loading_flag_and_settle (sessionInit (some "d1".data)) "d1".data rfl).2.1 _,
    ((c8_loading_flag_and_settle (sessionInit (some "d1".data)) "d1".data rfl).2.2.1
      ⟨⟨"d1".data, "t".data⟩, []⟩).1,
    ((c8_loading_flag_and_settle (sessionInit (some "d1".data)) "d1".data rfl).2.2.1
      ⟨⟨"d1".data, "t".data⟩, []⟩).2,
    fun h => (c8_loading_flag_and_settle (sessionInit (some "d1".data)) "d1".data
      rfl).2.2.2.2 h (.httpError 500 "boom".data) rfl⟩

lemma renderSession_ne_button_of_continuing (s : SessionState)
    (h : s.isContinuing = true) : renderSession s ≠ .dreamView true false := by
  unfold renderSession
  by_cases hl : s.isLoading = true
  · simp [hl]
  · cases he : s.error with
    | some m => simp [hl, he]
    | none =>
      cases hd : s.dream with
      | none => simp [hl, he, hd]
      | some d =>
        simp only [hl, Bool.false_eq_true, if_false, he, hd]
        intro hq
        injection hq with ha hb
        rw [h] at hb
        exact Bool.noConfusion hb

lemma clickContinue_of_isContinuing (s : SessionState)
    (h : s.isContinuing = true) : clickContinue s = (s, none) := by
  unfold clickContinue
  rw [if_neg (renderSession_ne_button_of_continuing s h)]

/-- C4: the in-flight guards serialize equivalent requests.  (i) While a
    continuation is outstanding (`isContinuing`), a continue click is
    rejected without touching state or the network; (ii) hence a
    double-invocation issues exactly one call: once the first click issued
    a request, a second click issues none; (iii) over every reachable
    session state at most one continue request is outstanding; (iv) a
    dream-list fetch trigger while one is in flight (`loading`) is
    silently ignored; (v) over every reachable browser state at most one
    list request is outstanding. -/
theorem c4_no_concurrent_duplicates :
    (∀ s : SessionState, s.isContinuing = true → clickContinue s = (s, none)) ∧
    (∀ s : SessionState, (clickContinue s).2.isSome = true →
      (clickContinue (clickContinue s).1).2 = none) ∧
    (∀ s : SessionState, SessionReachable s → s.pendingContinue.length ≤ 1) ∧
    (∀ (s : BrowserState) (offset : Nat) (reset : Bool), s.loading = true →
      fetchStart s offset reset = (s, none)) ∧
    (∀ s : BrowserState, BrowserReachable s → s.pending.length ≤ 1) := by
  refine ⟨clickContinue_of_isContinuing, ?_, ?_, ?_, ?_⟩
  · intro s h
    by_cases hcond : renderSession s = .dreamView true false
    · have hiss : (clickContinue s).1.isContinuing = true := by
        unfold clickContinue
        rw [if_pos hcond]
        unfold continueStart
        cases hid : s.dreamId with
        | none =>
          exfalso
          unfold clickContinue continueStart at h
          rw [if_pos hcond, hid] at h
          exact Bool.noConfusion h
        | some id => rfl
      rw [clickContinue_of_isContinuing _ hiss]
    · exfalso
      unfold clickContinue at h
      rw [if_neg hcond] at h
      exact Bool.noConfusion h
  · intro s hs
    exact (sessionInv_reachable s hs).2
  · intro s offset reset h
    unfold fetchStart
    rw [if_pos h]
  · intro s hs
    exact (browserInv_reachable s hs).2.1

/-- Witness for `c4_no_concurrent_duplicates`: a busy session rejects a
    click; from an enabled session the first click issues and the second
    does not; the initial states are reachable with no outstanding
    requests; and a loading browser rejects a fetch trigger. -/
theorem c4_no_concurrent_duplicates_witness :
    (let busy : SessionState :=
      { dreamId := some "d1".data, isLoading := false, isContinuing := true,
        dream := some ⟨"d1".data, "t".data⟩,
        concepts := [⟨"c1".data, "x".data, none, none⟩,
          ⟨"c2".data, "y".data, none, none⟩],
        error := none, copied := false, pendingLoad := [],
        pendingContinue := ["d1".data] }
     busy.isContinuing = true ∧ clickContinue busy = (busy, none)) ∧
    (let ready : SessionState :=
      { dreamId := some "d1".data, isLoading := false, isContinuing := false,
        dream := some ⟨"d1".data, "t".data⟩,
        concepts := [⟨"c1".data, "x".data, none, none⟩,
          ⟨"c2".data, "y".data, none, none⟩],
        error := none, copied := false, pendingLoad := [], pendingContinue := [] }
     (clickContinue ready).2.isSome = true ∧
       (clickContinue (clickContinue ready).1).2 = none) ∧
    (sessionInit none).pendingContinue.length ≤ 1 ∧
    (let b : BrowserState := ⟨[], true, true, none, true, [⟨0, 20, true⟩]⟩
     b.loading = true ∧ fetchStart b 20 false = (b, none)) ∧
    browserInit.pending.length ≤ 1 :=
  ⟨⟨rfl, c4_no_concurrent_duplicates.1 _ rfl⟩,
    ⟨by decide, c4_no_concurrent_duplicates.2.1 _ (by decide)⟩,
    c4_no_concurrent_duplicates.2.2.1 _ (SessionReachable.init none),
    ⟨rfl, c4_no_concurrent_duplicates.2.2.2.1 _ 20 false rfl⟩,
    c4_no_concurrent_duplicates.2.2.2.2 _ BrowserReachable.init⟩

/-! ## Request URLs (C9) -/

/-- The URL `fetchDreams` actually requests (FindDreamsDropdown.tsx):
    a hardcoded template literal
    `http://localhost:8000/v1/dream/list?offset=${offset}&limit=${ITEMS_PER_PAGE}`,
    not built through the ApiGateway helper. -/
def dreamListUrl (offset limit : Nat) : List Char :=
  "http://localhost:8000/v1/dream/list?offset=".data ++ (toString offset).data ++
    "&limit=".data ++ (toString limit).data

/-- The URL `loadDream` requests (DreamView.tsx):
    `createApiUrl(` then `v1/dream/` and the id. -/
def dreamGetUrl (env : Option (List Char)) (id : List Char) : List Char :=
  createApiUrl env ("v1/dream/".data ++ id)

/-- The URL `continueDream` requests (DreamView.tsx):
    `createApiUrl(` then `v1/dream/`, the id and `/continue`. -/
def dreamContinueUrl (env : Option (List Char)) (id : List Char) : List Char :=
  createApiUrl env ("v1/dream/".data ++ id ++ "/continue".data)

/-- C9 evaluation at the failing configuration: with the documented
    production base URL configured, the dream-list fetch still requests
    the hardcoded localhost URL (it bypasses the gateway; it only
    coincides with the gateway's URL when the setting is absent), while
    the DreamSession's two requests do resolve from the configured base
    through `createApiUrl`. -/
theorem c9_list_fetch_bypasses_gateway :
    dreamListUrl 0 20 ≠
      createApiUrl (some "https://daydream.melbournedev.com".data)
        "v1/dream/list?offset=0&limit=20".data ∧
    dreamListUrl 0 20 =
      createApiUrl none "v1/dream/list?offset=0&limit=20".data ∧
    dreamGetUrl (some "https://daydream.melbournedev.com".data) "abc".data =
      "https://daydream.melbournedev.com/v1/dream/abc".data ∧
    dreamContinueUrl (some "https://daydream.melbournedev.com".data) "abc".data =
      "https://daydream.melbournedev.com/v1/dream/abc/continue".data :=
  ⟨by decide, by decide, by decide, by decide⟩

end Daydream
